import Mathlib

/-!
Verification development for the Compensate-Calculator salary-benchmarking app.

The repository is a TypeScript/React front end around one exchange with an
external structured-generation service.  This file shallowly embeds the parts
of the source that carry logic:

* `src/services/geminiService.ts` — the exchange adapter (`getApiKey`,
  `safeNum`, the annualised totals and `analyzeCompensation`);
* the entry-level variant of the adapter (the unnamed source file
  `src/unnamed/part_003`) with its two prompt templates;
* the dashboard derivations of `src/unnamed/part_000`
  (`currentAnnual`, `growthPercentage`, `currencySymbol`);
* the feedback modal submission handler of `src/unnamed/part_001`;
* the error-message mapping of `src/App.tsx` (`handleAnalysis`).

JavaScript numbers that may be `undefined`, `null` or `NaN` are modelled by
the inductive `JNum`; arithmetic performed after the source's guards is exact
rational arithmetic.  JavaScript division, whose result at a zero denominator
is `Infinity` or `NaN` (never a finite number), is modelled by `jsDiv`
returning `none` at a zero denominator.  `JSON.parse` (a host builtin, not
repository code) is modelled by the executable parser `jsonParse`; the
external transport is an explicit function argument, and the number of times
the adapter invokes it is returned alongside the result.
-/

namespace Compensate

/-- A JavaScript `number | undefined | null` as the form hands it to the
adapter: absent (`undefined`), `null`, `NaN`, or a finite number (modelled as
a rational). -/
inductive JNum where
  | undef
  | null
  | nan
  | num (q : ℚ)
deriving DecidableEq

/-- From `src/services/geminiService.ts` lines 14-18 (identically in
`src/unnamed/part_003` lines 14-18): `typeof val === 'number' && !isNaN(val)`
keeps a finite number, everything else becomes `0`. -/
def safeNum : JNum → ℚ
  | .num q => q
  | _ => 0

/-- JavaScript `v || 0` on a `JNum`: falsy values (`undefined`, `null`,
`NaN`, `0`) give `0`, a truthy number gives itself. -/
def jsOrZero : JNum → ℚ
  | .num q => if q = 0 then 0 else q
  | _ => 0

/-- JavaScript `s || d` on a string: the empty string is falsy. -/
def jsStrOr (s d : String) : String :=
  if s = "" then d else s

/-- Template-literal rendering of a finite JavaScript number (integer inputs
render as their decimal digits, which is all the embedding interpolates). -/
def jsNumToString (q : ℚ) : String :=
  toString q

/-- Template-literal rendering of a raw `JNum` (what `${x}` prints when `x`
was not first normalised). -/
def jnumTemplate : JNum → String
  | .undef => "undefined"
  | .null => "null"
  | .nan => "NaN"
  | .num q => jsNumToString q

/-- The user-submitted profile (`UserProfile` of `types.ts`, as constructed
by `src/components/SalaryForm.tsx` and consumed by the adapter and the
dashboard). -/
structure UserProfile where
  currentRole : String
  yearsExperience : JNum
  location : String
  industry : String
  currency : String
  isEntryLevel : Bool
  monthlyBaseSalary : JNum
  monthlyIncentive : JNum
  monthlyOvertime : JNum
  annualProfitShare : JNum
  festivalBonus : JNum
  providentFund : JNum
  gratuity : JNum
  benefits : Option (List String)
  expectedSalary : JNum
  education : String
  userSkills : String
  projectDetails : String
deriving DecidableEq

/-- A JSON value, the shape `JSON.parse` produces. -/
inductive Json where
  | null
  | bool (b : Bool)
  | num (q : ℚ)
  | str (s : String)
  | arr (elems : List Json)
  | obj (members : List (String × Json))

/-- Whitespace skipping of the JSON grammar. -/
def skipWs : List Char → List Char
  | [] => []
  | c :: cs => if c = ' ' || c = '\n' || c = '\t' || c = '\r' then skipWs cs else c :: cs

/-- The body of a JSON string after its opening quote: the decoded
characters and the rest of the input after the closing quote. -/
def parseStringBody : List Char → Option (List Char × List Char)
  | [] => none
  | '"' :: rest => some ([], rest)
  | '\\' :: c :: rest =>
    let esc := if c = 'n' then '\n' else if c = 't' then '\t' else if c = 'r' then '\r' else c
    match parseStringBody rest with
    | some (cs, r) => some (esc :: cs, r)
    | none => none
  | c :: rest =>
    match parseStringBody rest with
    | some (cs, r) => some (c :: cs, r)
    | none => none

/-- Longest leading run of decimal digits. -/
def takeDigits : List Char → List Char × List Char
  | [] => ([], [])
  | c :: cs =>
    if c.isDigit then
      let (ds, r) := takeDigits cs
      (c :: ds, r)
    else ([], c :: cs)

/-- Value of a digit string. -/
def digitsVal (ds : List Char) : ℕ :=
  ds.foldl (fun n c => 10 * n + (c.toNat - 48)) 0

/-- A JSON number (optional minus, digits, optional fraction). -/
def parseNumber (cs : List Char) : Option (ℚ × List Char) :=
  let (neg, cs1) := match cs with
    | '-' :: r => (true, r)
    | _ => (false, cs)
  match takeDigits cs1 with
  | ([], _) => none
  | (ds, r) =>
    let intPart : ℚ := (digitsVal ds : ℕ)
    match r with
    | '.' :: r2 =>
      match takeDigits r2 with
      | ([], _) => none
      | (fs, r3) =>
        let v := intPart + (digitsVal fs : ℕ) / ((10 : ℚ) ^ fs.length)
        some (if neg then -v else v, r3)
    | _ => some (if neg then -intPart else intPart, r)

mutual

/-- One JSON value at the head of the input (fuelled recursive descent). -/
def parseValue : ℕ → List Char → Option (Json × List Char)
  | 0, _ => none
  | fuel + 1, cs =>
    match skipWs cs with
    | 'n' :: 'u' :: 'l' :: 'l' :: rest => some (.null, rest)
    | 't' :: 'r' :: 'u' :: 'e' :: rest => some (.bool true, rest)
    | 'f' :: 'a' :: 'l' :: 's' :: 'e' :: rest => some (.bool false, rest)
    | '"' :: rest =>
      match parseStringBody rest with
      | some (cs', r) => some (.str (String.mk cs'), r)
      | none => none
    | '[' :: rest =>
      match skipWs rest with
      | ']' :: r => some (.arr [], r)
      | cs2 =>
        match parseElems fuel cs2 with
        | some (es, r) => some (.arr es, r)
        | none => none
    | '{' :: rest =>
      match skipWs rest with
      | '}' :: r => some (.obj [], r)
      | cs2 =>
        match parseMembers fuel cs2 with
        | some (ms, r) => some (.obj ms, r)
        | none => none
    | cs1 =>
      match parseNumber cs1 with
      | some (q, r) => some (.num q, r)
      | none => none

/-- Comma-separated array elements up to the closing bracket. -/
def parseElems : ℕ → List Char → Option (List Json × List Char)
  | 0, _ => none
  | fuel + 1, cs =>
    match parseValue fuel cs with
    | some (j, r) =>
      match skipWs r with
      | ',' :: r2 =>
        match parseElems fuel r2 with
        | some (es, r3) => some (j :: es, r3)
        | none => none
      | ']' :: r2 => some ([j], r2)
      | _ => none
    | none => none

/-- Comma-separated object members up to the closing brace. -/
def parseMembers : ℕ → List Char → Option (List (String × Json) × List Char)
  | 0, _ => none
  | fuel + 1, cs =>
    match skipWs cs with
    | '"' :: rest =>
      match parseStringBody rest with
      | some (kcs, r) =>
        match skipWs r with
        | ':' :: r2 =>
          match parseValue fuel r2 with
          | some (v, r3) =>
            match skipWs r3 with
            | ',' :: r4 =>
              match parseMembers fuel r4 with
              | some (ms, r5) => some ((String.mk kcs, v) :: ms, r5)
              | none => none
            | '}' :: r4 => some ([(String.mk kcs, v)], r4)
            | _ => none
          | none => none
        | _ => none
      | none => none
    | _ => none

end

/-- The host `JSON.parse`: the parsed value, or a thrown `SyntaxError`
(modelled as `Except.error` with its message). -/
def jsonParse (s : String) : Except String Json :=
  match parseValue (s.length + 1) s.data with
  | some (j, rest) =>
    if skipWs rest = [] then .ok j else .error "Unexpected non-whitespace character after JSON"
  | none => .error "Unexpected end of JSON input"

/-- The schema language of the `@google/genai` request configuration
(`Type.OBJECT`, `Type.STRING` with an optional `enum`, `Type.NUMBER`,
`Type.ARRAY`; objects carry `properties` and `required`, and leaves may carry
a `description`). -/
inductive SchemaType where
  | object (properties : List (String × SchemaType)) (required : List String)
  | string (enum : Option (List String)) (description : Option String)
  | number (description : Option String)
  | array (items : SchemaType) (description : Option String)

/-- Whether a JSON value conforms to a schema: every `required` key present,
every declared property well-typed, enum values in the enumeration (fuelled
on nesting depth). -/
def conforms : ℕ → SchemaType → Json → Bool
  | 0, _, _ => false
  | fuel + 1, s, j =>
    match s, j with
    | .number _, .num _ => true
    | .string none _, .str _ => true
    | .string (some vals) _, .str v => vals.contains v
    | .array t _, .arr es => es.all (fun e => conforms fuel t e)
    | .object props required, .obj ms =>
      required.all (fun r => ms.any (fun m => m.1 == r)) &&
      ms.all (fun m =>
        match props.lookup m.1 with
        | some t => conforms fuel t m.2
        | none => true)
    | _, _ => false

/-- Schema conformance at ample fuel (the declared schemas nest at most six
levels deep). -/
def schemaConforms (s : SchemaType) (j : Json) : Bool :=
  conforms 32 s j

/-- The outgoing `ai.models.generateContent` request: the model name, the
prompt, and the structured-output configuration. -/
structure GenRequest where
  model : String
  contents : String
  responseMimeType : String
  responseSchema : SchemaType

/-- What the external transport does with one request: reject (a thrown
network/service error) or respond, with `text` possibly absent. -/
inductive ServiceOutcome where
  | threw (message : String)
  | responded (text : Option String)

/-- How one invocation of the adapter can fail, by provenance:
`missingApiKey` is the `throw new Error("MISSING_API_KEY")` before any
request; `requestFailed` is a rethrown transport error; `invalidResponse` is
a rethrown `JSON.parse` error. -/
inductive AnalysisError where
  | missingApiKey
  | requestFailed (message : String)
  | invalidResponse (message : String)
deriving DecidableEq

/-- The `message` of the thrown `Error`, which is all `src/App.tsx`
distinguishes errors by. -/
def errMessage : AnalysisError → String
  | .missingApiKey => "MISSING_API_KEY"
  | .requestFailed m => m
  | .invalidResponse m => m

namespace GeminiService

/-- From `src/services/geminiService.ts` lines 5-12: `process.env.API_KEY`
(the `env` argument), empty or absent collapsing to the empty string. -/
def getApiKey (env : Option String) : String :=
  match env with
  | none => ""
  | some key => if key = "" then "" else key

/-- Line 37: `monthlyBase * 12`. -/
def annualBaseSalary (p : UserProfile) : ℚ :=
  safeNum p.monthlyBaseSalary * 12

/-- Line 38: `monthlyInc * 12`. -/
def annualIncentive (p : UserProfile) : ℚ :=
  safeNum p.monthlyIncentive * 12

/-- Line 39: `monthlyOver * 12`. -/
def annualOvertime (p : UserProfile) : ℚ :=
  safeNum p.monthlyOvertime * 12

/-- Line 41: the total annual package, in the source's summand order. -/
def totalComp (p : UserProfile) : ℚ :=
  annualBaseSalary p + annualIncentive p + safeNum p.annualProfitShare +
    annualOvertime p + safeNum p.festivalBonus + safeNum p.providentFund +
    safeNum p.gratuity

/-- Line 43: the benefits list joined with a comma, or `'None listed'`. -/
def benefitsStr (p : UserProfile) : String :=
  match p.benefits with
  | some bs => if bs.length > 0 then String.intercalate ", " bs else "None listed"
  | none => "None listed"

/-- Lines 91-98 and 112-120: the salary-range subschema (the source repeats
this literal at both places). -/
def salaryRangeSchema : SchemaType :=
  .object [("min", .number none), ("median", .number none), ("max", .number none)]
    ["min", "median", "max"]

/-- Lines 88-105: the `marketAnalysis` subschema. -/
def marketAnalysisSchema : SchemaType :=
  .object
    [("currentRoleMarketValue", salaryRangeSchema),
     ("paymentStatus", .string (some ["Underpaid", "Fair", "Highly Competitive"]) none),
     ("percentile", .number (some "Estimated percentile of current pay vs market (0-100)")),
     ("gapAnalysis", .string none (some "A concise explanation of the salary gap based on location."))]
    ["currentRoleMarketValue", "paymentStatus", "percentile", "gapAnalysis"]

/-- Lines 106-127: the `nextCareerMove` subschema. -/
def nextCareerMoveSchema : SchemaType :=
  .object
    [("roleTitle", .string none none),
     ("timeframeYears", .string none (some "e.g. '1-2 years'")),
     ("probabilityScore", .number (some "0-100 confidence in this path")),
     ("salaryRange", salaryRangeSchema),
     ("requiredSkills", .array (.string none none) none)]
    ["roleTitle", "timeframeYears", "probabilityScore", "salaryRange", "requiredSkills"]

/-- Lines 128-140: the `negotiation` subschema. -/
def negotiationSchema : SchemaType :=
  .object
    [("whyYouArePerfect", .string none (some "Script explaining why the user is the perfect candidate.")),
     ("whyYouDeserveIt", .string none (some "Script explaining why they are asking for this specific compensation.")),
     ("tips", .array (.string none none) (some "3-4 short, bulleted actionable tips."))]
    ["whyYouArePerfect", "whyYouDeserveIt", "tips"]

/-- Lines 85-144: the full declared response schema. -/
def responseSchema : SchemaType :=
  .object
    [("marketAnalysis", marketAnalysisSchema),
     ("nextCareerMove", nextCareerMoveSchema),
     ("negotiation", negotiationSchema),
     ("verdictColor", .string none (some "A hex color code representing the status (Red/Yellow/Green)"))]
    ["marketAnalysis", "nextCareerMove", "negotiation", "verdictColor"]

/-- Lines 45-77: the prompt template, with the source's interpolations. -/
def prompt (p : UserProfile) : String :=
  "\n    Analyze the following professional profile for compensation benchmarking and career progression.\n\n    Profile Details:\n    - Role: "
  ++ jsStrOr p.currentRole "Professional"
  ++ "\n    - Experience: " ++ jsNumToString (safeNum p.yearsExperience) ++ " years"
  ++ "\n    - Location: " ++ jsStrOr p.location "Unknown"
  ++ "\n    - Industry: " ++ jsStrOr p.industry "General"
  ++ "\n    - Currency: " ++ jsStrOr p.currency "USD"
  ++ "\n\n    Compensation Breakdown (Annualized):"
  ++ "\n    - Base Salary (Annualized): " ++ jsNumToString (annualBaseSalary p)
  ++ "\n    - Incentive (Annualized): " ++ jsNumToString (annualIncentive p)
  ++ "\n    - Profit Share (Annual): " ++ jsNumToString (safeNum p.annualProfitShare)
  ++ "\n    - Overtime (Annualized): " ++ jsNumToString (annualOvertime p)
  ++ "\n    - Festival Bonus: " ++ jsNumToString (safeNum p.festivalBonus)
  ++ "\n    - Provident Fund: " ++ jsNumToString (safeNum p.providentFund)
  ++ "\n    - Gratuity: " ++ jsNumToString (safeNum p.gratuity)
  ++ "\n    - Total Annual Package: " ++ jsNumToString (totalComp p)
  ++ "\n\n    Benefits / Perks:\n    " ++ benefitsStr p
  ++ "\n\n    TASK:\n    1. Evaluate if the Current Total Annual Package ("
  ++ jsNumToString (totalComp p) ++ " " ++ p.currency
  ++ ") is fair for the role of \"" ++ p.currentRole ++ "\" with "
  ++ jnumTemplate p.yearsExperience ++ " years experience specifically in "
  ++ p.location
  ++ ".\n    2. Predict the NEXT likely role and the expected salary range for that NEXT role in "
  ++ p.location
  ++ ".\n    3. Provide negotiation scripts:\n       - \"Why You Are Perfect\": A persuasive script tailored to their experience level explaining why they are the ideal candidate.\n       - \"Why You Are Asking This\": A data-backed script justifying the specific salary increase or package they should ask for, referencing market rates and inflation.\n       - \"Tips\": Actionable, short tips for the negotiation meeting with HR.\n\n    Provide a strict JSON response.\n  "

/-- Lines 80-146: the one outgoing request. -/
def buildRequest (p : UserProfile) : GenRequest :=
  { model := "gemini-2.5-flash"
    contents := prompt p
    responseMimeType := "application/json"
    responseSchema := responseSchema }

/-- Lines 20-157: the adapter.  `env` models `process.env.API_KEY` and
`service` the external transport; the second component counts how many
requests were issued.  The `try/catch` rethrows, so transport and parse
errors propagate to the caller. -/
def analyzeCompensation (env : Option String) (service : GenRequest → ServiceOutcome)
    (profile : UserProfile) : Except AnalysisError (Option Json) × ℕ :=
  let apiKey := getApiKey env
  if apiKey = "" then
    (Except.error AnalysisError.missingApiKey, 0)
  else
    match service (buildRequest profile) with
    | .threw msg => (Except.error (AnalysisError.requestFailed msg), 1)
    | .responded text =>
      match text with
      | none => (Except.ok none, 1)
      | some s =>
        if s = "" then (Except.ok none, 1)
        else
          match jsonParse s with
          | .ok j => (Except.ok (some j), 1)
          | .error e => (Except.error (AnalysisError.invalidResponse e), 1)

end GeminiService

namespace GeminiServiceEL

/-- From the unnamed service variant `src/unnamed/part_003` (the version
with the entry-level branch; it repeats `getApiKey` and `safeNum` verbatim,
which this namespace reuses from `GeminiService`).  Lines 46-70: the
entry-level prompt template. -/
def entryPrompt (p : UserProfile) : String :=
  "\n      Act as an Inspiring Career Mentor and Market Analyst for Fresh Graduates.\n      Analyze this Entry-Level profile.\n\n      Profile:\n      - Target Role: "
  ++ jsStrOr p.currentRole "Not Specified"
  ++ "\n      - Education: " ++ jsStrOr p.education "Not Specified"
  ++ "\n      - Key Skills: " ++ jsStrOr p.userSkills "Not Specified"
  ++ "\n      - Key Projects/Thesis: \"" ++ jsStrOr p.projectDetails "None listed" ++ "\""
  ++ "\n      - Location: " ++ jsStrOr p.location "Unknown"
  ++ "\n      - Industry: " ++ jsStrOr p.industry "General"
  ++ "\n      - Currency: " ++ jsStrOr p.currency "USD"
  ++ "\n      - User's Expected Monthly Salary: " ++ jsNumToString (jsOrZero p.expectedSalary)
  ++ "\n\n      TASK:\n      1. REAL-TIME MARKET DATA: Estimate the *actual* Entry-Level salary range (Annual) for this role in this location based on platforms like Glassdoor/LinkedIn/Levels.fyi.\n      2. PROJECT VALUATION: In 'gapAnalysis', specifically analyze their Project/Thesis. How does this project translate to real-world value? (e.g., \"Your thesis on AI shows you can handle complex data...\").\n      3. GROWTH MAP: Instead of \"Next Role\", predict where they could be in 2 years (e.g. \"Mid-Level Engineer\").\n      4. SKILL GAP: List 3-5 \"Money-Making Skills\" they should add immediately to increase their value.\n      5. INTERVIEW PITCH: Create a script on how to SELL their Project/Thesis during an interview to negotiate a higher salary.\n         - Map \"whyYouArePerfect\" to \"How to explain your Project's Impact\".\n         - Map \"whyYouDeserveIt\" to \"Why your skills define your value, not your experience\".\n\n      Provide a strict JSON response conforming to the schema.\n    "

/-- Lines 72-92: the experienced prompt template (interpolating the
annualised total from the same `safeNum` normalisation as `GeminiService`).
-/
def experiencedPrompt (p : UserProfile) : String :=
  "\n      Act as an Expert Executive Headhunter and Senior Compensation Data Scientist.\n      Analyze the following EXPERIENCED profile using REAL-TIME market data contexts for late 2024/2025.\n\n      User Profile:\n      - Role: "
  ++ jsStrOr p.currentRole "Professional"
  ++ "\n      - Experience: " ++ jsNumToString (safeNum p.yearsExperience) ++ " years"
  ++ "\n      - Location: " ++ jsStrOr p.location "Unknown" ++ " (Factor in cost of living and local market demand)"
  ++ "\n      - Industry: " ++ jsStrOr p.industry "General"
  ++ "\n      - Currency: " ++ jsStrOr p.currency "USD"
  ++ "\n\n      Total Annual Compensation: " ++ jsNumToString (GeminiService.totalComp p)
  ++ "\n\n      TASK:\n      1. ACCURATE MARKET ANALYSIS: Compare this user against the *actual* market rates. Be precise.\n      2. CAREER LADDER PREDICTION: Identify the exact next logical role. Not just a generic step, but the industry-standard promotion title.\n      3. CHECKLIST FOR SWITCHING: Generate 5 critical, specific things this user must check in their offer letter or interview for the NEXT role.\n      4. NEGOTIATION SCRIPT: Create a data-backed argument for why they are ready for this next step.\n\n      Provide a strict JSON response conforming to the schema.\n    "

/-- Lines 101-165: this variant's declared response schema (it adds the
"Entry Level" payment status and a required `switchChecklist`). -/
def responseSchemaEL : SchemaType :=
  .object
    [("marketAnalysis", .object
        [("currentRoleMarketValue", GeminiService.salaryRangeSchema),
         ("paymentStatus", .string (some ["Underpaid", "Fair", "Highly Competitive", "Entry Level"]) none),
         ("percentile", .number none),
         ("gapAnalysis", .string none (some "For newbies: Project Valuation & Employability Sentiment"))]
        ["currentRoleMarketValue", "paymentStatus", "percentile", "gapAnalysis"]),
     ("nextCareerMove", .object
        [("roleTitle", .string none none),
         ("timeframeYears", .string none none),
         ("probabilityScore", .number none),
         ("salaryRange", GeminiService.salaryRangeSchema),
         ("requiredSkills", .array (.string none none) (some "For newbies: High demand skills to learn")),
         ("switchChecklist", .array (.string none none) (some "Specific things to verify before accepting the job offer"))]
        ["roleTitle", "timeframeYears", "probabilityScore", "salaryRange", "requiredSkills", "switchChecklist"]),
     ("negotiation", .object
        [("whyYouArePerfect", .string none none),
         ("whyYouDeserveIt", .string none none),
         ("tips", .array (.string none none) none)]
        ["whyYouArePerfect", "whyYouDeserveIt", "tips"]),
     ("verdictColor", .string none none)]
    ["marketAnalysis", "nextCareerMove", "negotiation", "verdictColor"]

/-- Lines 43-98: the prompt is selected by the entry-level flag; model and
schema are the same fixed values in both modes. -/
def buildRequestEL (p : UserProfile) : GenRequest :=
  { model := "gemini-2.5-flash"
    contents := if p.isEntryLevel then entryPrompt p else experiencedPrompt p
    responseMimeType := "application/json"
    responseSchema := responseSchemaEL }

/-- Lines 20-178: the adapter of the entry-level variant (same control flow
as `GeminiService.analyzeCompensation`, with the branched prompt). -/
def analyzeCompensationEL (env : Option String) (service : GenRequest → ServiceOutcome)
    (profile : UserProfile) : Except AnalysisError (Option Json) × ℕ :=
  let apiKey := GeminiService.getApiKey env
  if apiKey = "" then
    (Except.error AnalysisError.missingApiKey, 0)
  else
    match service (buildRequestEL profile) with
    | .threw msg => (Except.error (AnalysisError.requestFailed msg), 1)
    | .responded text =>
      match text with
      | none => (Except.ok none, 1)
      | some s =>
        if s = "" then (Except.ok none, 1)
        else
          match jsonParse s with
          | .ok j => (Except.ok (some j), 1)
          | .error e => (Except.error (AnalysisError.invalidResponse e), 1)

end GeminiServiceEL

/-- The typed insights record the dashboard consumes (`CompensationInsights`
of `types.ts`): a salary range is three numbers. -/
structure SalaryRange where
  min : ℚ
  median : ℚ
  max : ℚ
deriving DecidableEq

/-- `marketAnalysis` of the insights record. -/
structure MarketAnalysis where
  currentRoleMarketValue : SalaryRange
  paymentStatus : String
  percentile : ℚ
  gapAnalysis : String
deriving DecidableEq

/-- `nextCareerMove` of the insights record. -/
structure NextCareerMove where
  roleTitle : String
  timeframeYears : String
  probabilityScore : ℚ
  salaryRange : SalaryRange
  requiredSkills : List String
  switchChecklist : Option (List String)
deriving DecidableEq

/-- `negotiation` of the insights record. -/
structure Negotiation where
  whyYouArePerfect : String
  whyYouDeserveIt : String
  tips : List String
deriving DecidableEq

/-- The full insights record. -/
structure CompensationInsights where
  marketAnalysis : MarketAnalysis
  nextCareerMove : NextCareerMove
  negotiation : Negotiation
  verdictColor : String
deriving DecidableEq

namespace ResultsDashboard

/-- From the dashboard `src/unnamed/part_000` lines 17-25: the current
annual package, each raw field read as `x || 0`. -/
def currentAnnual (p : UserProfile) : ℚ :=
  jsOrZero p.monthlyBaseSalary * 12 + jsOrZero p.monthlyIncentive * 12 +
    jsOrZero p.monthlyOvertime * 12 + jsOrZero p.annualProfitShare +
    jsOrZero p.festivalBonus + jsOrZero p.providentFund + jsOrZero p.gratuity

/-- Line 30: the market-median figure used as the entry-level baseline. -/
def targetEntryAnnual (r : CompensationInsights) : ℚ :=
  r.marketAnalysis.currentRoleMarketValue.median

/-- Line 36: the predicted next-role median. -/
def nextAnnualMedian (r : CompensationInsights) : ℚ :=
  r.nextCareerMove.salaryRange.median

/-- JavaScript division: at a zero denominator the result is `Infinity`,
`-Infinity` or `NaN` — never a finite number — modelled as `none`. -/
def jsDiv (a b : ℚ) : Option ℚ :=
  if b = 0 then none else some (a / b)

/-- Lines 39-41: the growth percentage, with the market-median fallback
baseline when the current annual package is not positive. -/
def growthPercentage (p : UserProfile) (r : CompensationInsights) : Option ℚ :=
  if currentAnnual p > 0 then
    (jsDiv (nextAnnualMedian r - currentAnnual p) (currentAnnual p)).map (· * 100)
  else
    (jsDiv (nextAnnualMedian r - targetEntryAnnual r) (targetEntryAnnual r)).map (· * 100)

/-- Lines 43-47: the currency-symbol ternary chain on
`userProfile.currency`. -/
def currencySymbol (currency : String) : String :=
  if currency = "USD" then "$"
  else if currency = "EUR" then "€"
  else if currency = "GBP" then "£"
  else if currency = "BDT" then "৳"
  else if currency = "INR" then "₹"
  else "$"

end ResultsDashboard

namespace FeedbackModal

/-- The feedback modal's UI step (`src/unnamed/part_001` line 9). -/
inductive Step where
  | form
  | submitting
  | success
deriving DecidableEq

/-- What the `fetch` to the form relay did: resolved with `response.ok`,
resolved non-ok (whose body is the logged `errorData`), or rejected. -/
inductive FetchOutcome where
  | okResponse (body : Json)
  | errorResponse (errorData : Json)
  | fetchRejected (message : String)

/-- The `try` block of `handleSubmit` (lines 48-64): a non-ok response
becomes `throw new Error("Failed to send feedback")`, a rejected fetch
propagates. -/
def submitAttempt : FetchOutcome → Except String Unit
  | .okResponse _ => .ok ()
  | .errorResponse _ => .error "Failed to send feedback"
  | .fetchRejected m => .error m

/-- Lines 28-70: the step `handleSubmit` ends in — the `catch` logs and
falls back to the success UI. -/
def handleSubmit (outcome : FetchOutcome) : Step :=
  match submitAttempt outcome with
  | .ok _ => Step.success
  | .error _ => Step.success

end FeedbackModal

/-- What `src/App.tsx`'s `handleAnalysis` leaves on screen: a results
dashboard, or the error banner's message. -/
inductive AppView where
  | results (data : Json)
  | errorView (message : String)

/-- From `src/App.tsx` lines 20-36: the outcome-to-view mapping of
`handleAnalysis` (`null` data means the soft "could not generate" banner; a
thrown error is classified by its message). -/
def handleAnalysis (outcome : Except AnalysisError (Option Json)) : AppView :=
  match outcome with
  | .ok (some data) => .results data
  | .ok none => .errorView "Could not generate analysis. Please try again."
  | .error err =>
    if errMessage err = "MISSING_API_KEY" then
      .errorView "API Key is missing. Please configure your Vercel/Environment variables with 'API_KEY'."
    else
      .errorView "Analysis failed. Please check your internet connection and try again."

/-- Object-field lookup on a parsed JSON value. -/
def getField : Json → String → Option Json
  | .obj ms, k => ms.lookup k
  | _, _ => none

/-- A numeric object field of a parsed JSON value. -/
def getNumField (j : Json) (k : String) : Option ℚ :=
  match getField j k with
  | some (.num q) => some q
  | _ => none

/-- The salary-range invariant the specification demands of every range
object: numeric `min`, `median`, `max` with `0 ≤ min ≤ median ≤ max`. -/
def rangeWellFormed (r : Json) : Bool :=
  match getNumField r "min", getNumField r "median", getNumField r "max" with
  | some mi, some me, some ma => decide (0 ≤ mi) && decide (mi ≤ me) && decide (me ≤ ma)
  | _, _, _ => false

/-- The `marketAnalysis.currentRoleMarketValue` range inside a returned
insights value. -/
def currentRoleRange (j : Json) : Option Json :=
  (getField j "marketAnalysis").bind (fun m => getField m "currentRoleMarketValue")

/-- A property's subschema inside an object schema. -/
def schemaProp : SchemaType → String → Option SchemaType
  | .object props _, k => props.lookup k
  | _, _ => none

/-- The `required` list of an object schema. -/
def schemaRequired : SchemaType → List String
  | .object _ required => required
  | _ => []

/-- A compensation field that is zero or absent in the sense of the
specification: `undefined`, `null`, or the number `0`. -/
def zeroOrAbsent (v : JNum) : Prop :=
  v = .undef ∨ v = .null ∨ v = .num 0

instance (v : JNum) : Decidable (zeroOrAbsent v) := by
  unfold zeroOrAbsent
  infer_instance

/-- A concrete experienced profile used to instantiate the theorems. -/
def sampleProfile : UserProfile :=
  { currentRole := "Software Engineer"
    yearsExperience := .num 5
    location := "Dhaka"
    industry := "Technology"
    currency := "USD"
    isEntryLevel := false
    monthlyBaseSalary := .num 5000
    monthlyIncentive := .num 0
    monthlyOvertime := .num 0
    annualProfitShare := .num 0
    festivalBonus := .num 0
    providentFund := .num 0
    gratuity := .num 0
    benefits := some ["Health Insurance"]
    expectedSalary := .undef
    education := ""
    userSkills := ""
    projectDetails := "" }

/-- A concrete profile whose compensation fields are all zero or absent. -/
def zeroCompProfile : UserProfile :=
  { sampleProfile with
    monthlyBaseSalary := .num 0
    monthlyIncentive := .undef
    monthlyOvertime := .null
    annualProfitShare := .num 0
    festivalBonus := .undef
    providentFund := .num 0
    gratuity := .undef }

/-- A concrete insights value with the given market median and next-role
median (the only two figures the growth computation reads). -/
def mkInsights (marketMedian nextMedian : ℚ) : CompensationInsights :=
  { marketAnalysis :=
      { currentRoleMarketValue := { min := 0, median := marketMedian, max := marketMedian }
        paymentStatus := "Fair"
        percentile := 50
        gapAnalysis := "" }
    nextCareerMove :=
      { roleTitle := ""
        timeframeYears := ""
        probabilityScore := 0
        salaryRange := { min := 0, median := nextMedian, max := nextMedian }
        requiredSkills := []
        switchChecklist := none }
    negotiation := { whyYouArePerfect := "", whyYouDeserveIt := "", tips := [] }
    verdictColor := "" }

/-- Current annual package 100000 (all in the profit-share field). -/
def pGrowth100k : UserProfile :=
  { zeroCompProfile with annualProfitShare := .num 100000 }

/-- Next-role median 150000 (market median irrelevant for this case). -/
def rGrowth150k : CompensationInsights :=
  mkInsights 120000 150000

/-- Market median 80000, next-role median 120000 (the entry-level example).
-/
def rGrowthFallback : CompensationInsights :=
  mkInsights 80000 120000

/-- Market median 0 and next-role median 120000: with a zero current annual
package the fallback baseline is itself zero. -/
def rZeroMedian : CompensationInsights :=
  mkInsights 0 120000

/-- A concrete entry-level profile. -/
def pEntryA : UserProfile :=
  { sampleProfile with
    isEntryLevel := true
    currentRole := "Junior Developer"
    education := "BSc CSE"
    userSkills := "React, SQL"
    projectDetails := "Thesis on AI"
    expectedSalary := .num 30000 }

/-- The same entry-level profile with different experienced-mode fields
(itemised pay, experience, benefits). -/
def pEntryB : UserProfile :=
  { pEntryA with
    monthlyBaseSalary := .num 99999
    monthlyIncentive := .num 777
    monthlyOvertime := .nan
    annualProfitShare := .num 12345
    festivalBonus := .num 1
    providentFund := .undef
    gratuity := .num 42
    yearsExperience := .num 9
    benefits := none }

/-- The response text `{}`: valid JSON, missing every required field. -/
def emptyObjText : String := "\x7b\x7d"

/-- A schema-conforming response text. -/
def conformingText : String :=
  "\x7b\"marketAnalysis\":\x7b\"currentRoleMarketValue\":\x7b\"min\":90000,\"median\":120000,\"max\":150000\x7d,\"paymentStatus\":\"Fair\",\"percentile\":60,\"gapAnalysis\":\"g\"\x7d,\"nextCareerMove\":\x7b\"roleTitle\":\"Lead\",\"timeframeYears\":\"1-2 years\",\"probabilityScore\":80,\"salaryRange\":\x7b\"min\":110000,\"median\":150000,\"max\":180000\x7d,\"requiredSkills\":[\"Leadership\"]\x7d,\"negotiation\":\x7b\"whyYouArePerfect\":\"a\",\"whyYouDeserveIt\":\"b\",\"tips\":[\"t\"]\x7d,\"verdictColor\":\"#22c55e\"\x7d"

/-- The JSON value `conformingText` parses to. -/
def conformingJson : Json :=
  ((jsonParse conformingText).toOption).getD .null

/-- A response text whose current-role range has `min` 100, `median` 50,
`max` 10 — violating `min ≤ median ≤ max`. -/
def violatingText : String :=
  "\x7b\"marketAnalysis\":\x7b\"currentRoleMarketValue\":\x7b\"min\":100,\"median\":50,\"max\":10\x7d,\"paymentStatus\":\"Fair\",\"percentile\":50,\"gapAnalysis\":\"g\"\x7d,\"nextCareerMove\":\x7b\"roleTitle\":\"r\",\"timeframeYears\":\"t\",\"probabilityScore\":70,\"salaryRange\":\x7b\"min\":4,\"median\":5,\"max\":6\x7d,\"requiredSkills\":[\"s\"]\x7d,\"negotiation\":\x7b\"whyYouArePerfect\":\"a\",\"whyYouDeserveIt\":\"b\",\"tips\":[\"t\"]\x7d,\"verdictColor\":\"c\"\x7d"

/-- The JSON value `violatingText` parses to. -/
def violatingJson : Json :=
  ((jsonParse violatingText).toOption).getD .null

/-- A zero-or-absent compensation field normalises to `0`. -/
theorem safeNum_eq_zero_of_zeroOrAbsent {v : JNum} (h : zeroOrAbsent v) : safeNum v = 0 := by
  rcases h with h | h | h <;> subst h <;> rfl

/-- C1: with the service credential absent from the process environment,
`analyzeCompensation` fails immediately with the `MISSING_API_KEY`
configuration error — a kind distinct from the request-failure and
parse-failure kinds — the caller maps it to the configuration message, and
the external transport is invoked zero times. -/
theorem c1_missing_key_config_error_no_call (env : Option String)
    (service : GenRequest → ServiceOutcome) (p : UserProfile)
    (h : env = none ∨ env = some "") :
    GeminiService.analyzeCompensation env service p = (Except.error AnalysisError.missingApiKey, 0)
    ∧ (∀ m, AnalysisError.missingApiKey ≠ AnalysisError.requestFailed m)
    ∧ (∀ m, AnalysisError.missingApiKey ≠ AnalysisError.invalidResponse m)
    ∧ handleAnalysis (Except.error AnalysisError.missingApiKey) =
        AppView.errorView "API Key is missing. Please configure your Vercel/Environment variables with 'API_KEY'." := by
  constructor
  · rcases h with h | h <;> subst h <;> rfl
  refine ⟨fun m h' => ?_, fun m h' => ?_, rfl⟩
  · cases h'
  · cases h'

/-- C1 witness: the configuration failure at a concrete profile, transport
and empty environment. -/
theorem c1_missing_key_witness :
    GeminiService.analyzeCompensation none (fun _ => ServiceOutcome.responded none) sampleProfile
      = (Except.error AnalysisError.missingApiKey, 0) :=
  (c1_missing_key_config_error_no_call none (fun _ => ServiceOutcome.responded none)
    sampleProfile (Or.inl rfl)).1

/-- C2 (amended): a response text that does not parse as JSON makes
`analyzeCompensation` fail with the parse-failure kind; but a response text
that parses is returned as-is — the `as CompensationInsights` cast performs
no runtime schema validation — so schema-nonconforming parseable JSON is
returned, not rejected. -/
theorem c2_parse_failure_and_unvalidated_passthrough (env : Option String) (p : UserProfile)
    (text : String) (hkey : GeminiService.getApiKey env ≠ "") (htext : text ≠ "") :
    (∀ e, jsonParse text = Except.error e →
      GeminiService.analyzeCompensation env (fun _ => ServiceOutcome.responded (some text)) p
        = (Except.error (AnalysisError.invalidResponse e), 1))
    ∧ ∀ j, jsonParse text = Except.ok j →
      GeminiService.analyzeCompensation env (fun _ => ServiceOutcome.responded (some text)) p
        = (Except.ok (some j), 1) :=
  ⟨fun e he => by simp [GeminiService.analyzeCompensation, hkey, htext, he],
   fun j hj => by simp [GeminiService.analyzeCompensation, hkey, htext, hj]⟩

/-- C2 witness: a concrete non-JSON response fails with the parse-failure
kind. -/
theorem c2_parse_failure_witness :
    GeminiService.analyzeCompensation (some "key")
      (fun _ => ServiceOutcome.responded (some "nope")) sampleProfile
      = (Except.error (AnalysisError.invalidResponse "Unexpected end of JSON input"), 1) :=
  (c2_parse_failure_and_unvalidated_passthrough (some "key") sampleProfile "nope"
    (by decide) (by decide)).1 "Unexpected end of JSON input" rfl

/-- C2 counterexample: `{}` is parseable JSON missing the required
`nextCareerMove` (it does not conform to the declared schema), yet
`analyzeCompensation` returns it as a success instead of failing with the
validation-error kind. -/
theorem c2_schema_mismatch_accepted_counterexample :
    jsonParse emptyObjText = Except.ok (Json.obj [])
    ∧ schemaConforms GeminiService.responseSchema (Json.obj []) = false
    ∧ GeminiService.analyzeCompensation (some "key")
        (fun _ => ServiceOutcome.responded (some emptyObjText)) sampleProfile
        = (Except.ok (some (Json.obj [])), 1) :=
  ⟨rfl, rfl, rfl⟩

/-- C4: normalisation maps missing and non-numeric (`NaN`) raw compensation
fields to `0`, annualises each monthly figure as `monthly × 12` exactly and
sums the seven components; consequently a profile whose compensation fields
are all zero or absent has total compensation exactly `0` (a rational — the
`NaN`-free codomain of `safeNum` — so `NaN` never reaches the outgoing
request). -/
theorem c4_normalized_totals :
    (safeNum JNum.undef = 0 ∧ safeNum JNum.null = 0 ∧ safeNum JNum.nan = 0
      ∧ ∀ q : ℚ, safeNum (JNum.num q) = q)
    ∧ (∀ p : UserProfile,
        GeminiService.annualBaseSalary p = safeNum p.monthlyBaseSalary * 12
        ∧ GeminiService.annualIncentive p = safeNum p.monthlyIncentive * 12
        ∧ GeminiService.annualOvertime p = safeNum p.monthlyOvertime * 12
        ∧ GeminiService.totalComp p =
            safeNum p.monthlyBaseSalary * 12 + safeNum p.monthlyIncentive * 12 +
            safeNum p.annualProfitShare + safeNum p.monthlyOvertime * 12 +
            safeNum p.festivalBonus + safeNum p.providentFund + safeNum p.gratuity)
    ∧ ∀ p : UserProfile,
        zeroOrAbsent p.monthlyBaseSalary → zeroOrAbsent p.monthlyIncentive →
        zeroOrAbsent p.monthlyOvertime → zeroOrAbsent p.annualProfitShare →
        zeroOrAbsent p.festivalBonus → zeroOrAbsent p.providentFund →
        zeroOrAbsent p.gratuity → GeminiService.totalComp p = 0 := by
  refine ⟨⟨rfl, rfl, rfl, fun q => rfl⟩, fun p => ⟨rfl, rfl, rfl, rfl⟩,
    fun p h1 h2 h3 h4 h5 h6 h7 => ?_⟩
  simp [GeminiService.totalComp, GeminiService.annualBaseSalary, GeminiService.annualIncentive,
    GeminiService.annualOvertime, safeNum_eq_zero_of_zeroOrAbsent h1,
    safeNum_eq_zero_of_zeroOrAbsent h2, safeNum_eq_zero_of_zeroOrAbsent h3,
    safeNum_eq_zero_of_zeroOrAbsent h4, safeNum_eq_zero_of_zeroOrAbsent h5,
    safeNum_eq_zero_of_zeroOrAbsent h6, safeNum_eq_zero_of_zeroOrAbsent h7]

/-- C4 witness: a concrete all-zero-or-absent profile totals exactly `0`. -/
theorem c4_zero_profile_witness :
    GeminiService.totalComp zeroCompProfile = 0 :=
  c4_normalized_totals.2.2 zeroCompProfile (by decide) (by decide) (by decide) (by decide)
    (by decide) (by decide) (by decide)

/-- C5: a response with no text yields the empty outcome `null` — a success,
distinct from every failure kind — and the caller reports it as "could not
generate analysis", wording distinct from both hard-error messages. -/
theorem c5_empty_response_null_outcome (env : Option String) (p : UserProfile)
    (hkey : GeminiService.getApiKey env ≠ "") :
    GeminiService.analyzeCompensation env (fun _ => ServiceOutcome.responded none) p
      = (Except.ok none, 1)
    ∧ (∀ e : AnalysisError, (Except.ok none : Except AnalysisError (Option Json)) ≠ Except.error e)
    ∧ handleAnalysis (Except.ok none)
        = AppView.errorView "Could not generate analysis. Please try again."
    ∧ "Could not generate analysis. Please try again."
        ≠ "Analysis failed. Please check your internet connection and try again."
    ∧ "Could not generate analysis. Please try again."
        ≠ "API Key is missing. Please configure your Vercel/Environment variables with 'API_KEY'." := by
  constructor
  · simp [GeminiService.analyzeCompensation, hkey]
  refine ⟨fun e h => ?_, rfl, by decide, by decide⟩
  cases h

/-- C5 witness: the empty outcome at a concrete credential and profile. -/
theorem c5_empty_response_witness :
    GeminiService.analyzeCompensation (some "key") (fun _ => ServiceOutcome.responded none)
      sampleProfile = (Except.ok none, 1) :=
  (c5_empty_response_null_outcome (some "key") sampleProfile (by decide)).1

/-- C6: a well-formed, schema-conforming response text round-trips — the
returned value is exactly the JSON the text parses to, unmodified. -/
theorem c6_roundtrip_identity (env : Option String) (p : UserProfile) (text : String) (j : Json)
    (hkey : GeminiService.getApiKey env ≠ "") (htext : text ≠ "")
    (_hconf : schemaConforms GeminiService.responseSchema j = true)
    (hparse : jsonParse text = Except.ok j) :
    GeminiService.analyzeCompensation env (fun _ => ServiceOutcome.responded (some text)) p
      = (Except.ok (some j), 1) := by
  simp [GeminiService.analyzeCompensation, hkey, htext, hparse]

set_option maxRecDepth 100000 in
/-- C6 witness: a concrete conforming response round-trips unmodified. -/
theorem c6_roundtrip_witness :
    GeminiService.analyzeCompensation (some "key")
      (fun _ => ServiceOutcome.responded (some conformingText)) sampleProfile
      = (Except.ok (some conformingJson), 1) :=
  c6_roundtrip_identity (some "key") sampleProfile conformingText conformingJson
    (by decide) (by decide) rfl rfl

/-- C3 counterexample: with a zero current annual package and a zero market
median, the fallback baseline is itself zero, so the division is still by
zero and the growth percentage is `Infinity`/undefined (`none`), although
the next-role median is `120000`. -/
theorem c3_zero_baseline_counterexample :
    ResultsDashboard.currentAnnual zeroCompProfile = 0
    ∧ ResultsDashboard.targetEntryAnnual rZeroMedian = 0
    ∧ ResultsDashboard.nextAnnualMedian rZeroMedian = 120000
    ∧ ResultsDashboard.growthPercentage zeroCompProfile rZeroMedian = none := by
  refine ⟨?_, ?_, ?_, ?_⟩
  · norm_num [ResultsDashboard.currentAnnual, zeroCompProfile, sampleProfile, jsOrZero]
  · norm_num [ResultsDashboard.targetEntryAnnual, rZeroMedian, mkInsights]
  · norm_num [ResultsDashboard.nextAnnualMedian, rZeroMedian, mkInsights]
  · norm_num [ResultsDashboard.growthPercentage, ResultsDashboard.currentAnnual,
      ResultsDashboard.targetEntryAnnual, ResultsDashboard.nextAnnualMedian,
      ResultsDashboard.jsDiv, zeroCompProfile, sampleProfile, rZeroMedian, mkInsights, jsOrZero]

/-- C3 (amended): the growth percentage is
`(targetAnnual − currentAnnual) / currentAnnual × 100` when the current
annual package is positive, and substitutes the market median as baseline
otherwise — defined (finite) whenever the substituted baseline is nonzero;
the two quoted examples both equal exactly 50. -/
theorem c3_growth_formula (p : UserProfile) (r : CompensationInsights) :
    (ResultsDashboard.currentAnnual p > 0 →
      ResultsDashboard.growthPercentage p r =
        some ((ResultsDashboard.nextAnnualMedian r - ResultsDashboard.currentAnnual p)
          / ResultsDashboard.currentAnnual p * 100))
    ∧ (¬ ResultsDashboard.currentAnnual p > 0 → ResultsDashboard.targetEntryAnnual r ≠ 0 →
      ResultsDashboard.growthPercentage p r =
        some ((ResultsDashboard.nextAnnualMedian r - ResultsDashboard.targetEntryAnnual r)
          / ResultsDashboard.targetEntryAnnual r * 100))
    ∧ ResultsDashboard.growthPercentage pGrowth100k rGrowth150k = some 50
    ∧ ResultsDashboard.growthPercentage zeroCompProfile rGrowthFallback = some 50 := by
  refine ⟨fun h => ?_, fun h hne => ?_, ?_, ?_⟩
  case refine_3 =>
    norm_num [ResultsDashboard.growthPercentage, ResultsDashboard.currentAnnual,
      ResultsDashboard.targetEntryAnnual, ResultsDashboard.nextAnnualMedian,
      ResultsDashboard.jsDiv, pGrowth100k, zeroCompProfile, sampleProfile, rGrowth150k,
      mkInsights, jsOrZero]
  case refine_4 =>
    norm_num [ResultsDashboard.growthPercentage, ResultsDashboard.currentAnnual,
      ResultsDashboard.targetEntryAnnual, ResultsDashboard.nextAnnualMedian,
      ResultsDashboard.jsDiv, zeroCompProfile, sampleProfile, rGrowthFallback,
      mkInsights, jsOrZero]
  · rw [ResultsDashboard.growthPercentage, if_pos h, ResultsDashboard.jsDiv, if_neg h.ne']
    rfl
  · rw [ResultsDashboard.growthPercentage, if_neg h, ResultsDashboard.jsDiv, if_neg hne]
    rfl

/-- C3 witness: the positive-baseline branch at the claim's first example
(current annual 100000, next-role median 150000). -/
theorem c3_growth_witness :
    ResultsDashboard.growthPercentage pGrowth100k rGrowth150k =
      some ((ResultsDashboard.nextAnnualMedian rGrowth150k
        - ResultsDashboard.currentAnnual pGrowth100k)
        / ResultsDashboard.currentAnnual pGrowth100k * 100) :=
  (c3_growth_formula pGrowth100k rGrowth150k).1
    (by norm_num [ResultsDashboard.currentAnnual, pGrowth100k, zeroCompProfile, sampleProfile,
      jsOrZero])

set_option maxRecDepth 100000 in
/-- C7 counterexample: a response whose `currentRoleMarketValue` has
`min` 100, `median` 50, `max` 10 — violating `min ≤ median ≤ max` — is
accepted and returned by `analyzeCompensation`, not rejected. -/
theorem c7_violating_range_accepted_counterexample :
    GeminiService.analyzeCompensation (some "key")
      (fun _ => ServiceOutcome.responded (some violatingText)) sampleProfile
      = (Except.ok (some violatingJson), 1)
    ∧ (currentRoleRange violatingJson).isSome = true
    ∧ rangeWellFormed ((currentRoleRange violatingJson).getD .null) = false :=
  ⟨rfl, rfl, rfl⟩

/-- C7 (amended): the declared request schema requires the three numeric
fields `min`, `median`, `max` on both salary-range objects, but the
implementation enforces no `min ≤ median ≤ max` (or non-negativity)
constraint on responses: every parseable response is returned as-is,
violating ranges included. -/
theorem c7_schema_fields_but_no_range_check (env : Option String) (p : UserProfile)
    (text : String) (j : Json)
    (hkey : GeminiService.getApiKey env ≠ "") (htext : text ≠ "")
    (hparse : jsonParse text = Except.ok j) :
    (schemaProp GeminiService.marketAnalysisSchema "currentRoleMarketValue").map schemaRequired
      = some ["min", "median", "max"]
    ∧ (schemaProp GeminiService.nextCareerMoveSchema "salaryRange").map schemaRequired
      = some ["min", "median", "max"]
    ∧ GeminiService.analyzeCompensation env (fun _ => ServiceOutcome.responded (some text)) p
      = (Except.ok (some j), 1) :=
  ⟨rfl, rfl, by simp [GeminiService.analyzeCompensation, hkey, htext, hparse]⟩

set_option maxRecDepth 100000 in
/-- C7 witness: the unchecked acceptance at the concrete violating response.
-/
theorem c7_no_range_check_witness :
    GeminiService.analyzeCompensation (some "key")
      (fun _ => ServiceOutcome.responded (some violatingText)) sampleProfile
      = (Except.ok (some violatingJson), 1) :=
  (c7_schema_fields_but_no_range_check (some "key") sampleProfile violatingText violatingJson
    (by decide) (by decide) rfl).2.2

/-- C8: the currency-symbol lookup is a pure function of the code with
exactly the five listed mappings and the dollar default for every other
code. -/
theorem c8_currency_symbol_lookup (c : String)
    (h : c ≠ "USD" ∧ c ≠ "EUR" ∧ c ≠ "GBP" ∧ c ≠ "BDT" ∧ c ≠ "INR") :
    ResultsDashboard.currencySymbol "USD" = "$"
    ∧ ResultsDashboard.currencySymbol "EUR" = "€"
    ∧ ResultsDashboard.currencySymbol "GBP" = "£"
    ∧ ResultsDashboard.currencySymbol "BDT" = "৳"
    ∧ ResultsDashboard.currencySymbol "INR" = "₹"
    ∧ ResultsDashboard.currencySymbol c = "$" := by
  obtain ⟨h1, h2, h3, h4, h5⟩ := h
  refine ⟨rfl, rfl, rfl, rfl, rfl, ?_⟩
  rw [ResultsDashboard.currencySymbol, if_neg h1, if_neg h2, if_neg h3, if_neg h4, if_neg h5]

/-- C8 witness: an unrecognised code falls back to the dollar symbol. -/
theorem c8_currency_symbol_witness :
    ResultsDashboard.currencySymbol "JPY" = "$" :=
  (c8_currency_symbol_lookup "JPY" (by decide)).2.2.2.2.2

/-- C9: every feedback submission ends in the `success` step — an ok
response, a non-ok response (whose thrown error the `catch` swallows after
logging) and a rejected `fetch` all converge to the success UI, so the form
never ends in an error state. -/
theorem c9_feedback_always_success (o : FeedbackModal.FetchOutcome) :
    FeedbackModal.handleSubmit o = FeedbackModal.Step.success := by
  cases o <;> rfl

/-- C10: for two entry-level profiles agreeing on the eight fields the
entry-level prompt interpolates (role, education, skills, projects,
location, industry, currency, expected salary), the outgoing requests are
identical — the experienced-mode compensation fields do not influence the
exchange, and with any credential and transport the whole adapter behaves
identically. -/
theorem c10_entry_mode_noninterference (p1 p2 : UserProfile)
    (h1 : p1.isEntryLevel = true) (h2 : p2.isEntryLevel = true)
    (hrole : p1.currentRole = p2.currentRole) (hedu : p1.education = p2.education)
    (hskills : p1.userSkills = p2.userSkills) (hproj : p1.projectDetails = p2.projectDetails)
    (hloc : p1.location = p2.location) (hind : p1.industry = p2.industry)
    (hcur : p1.currency = p2.currency) (hexp : p1.expectedSalary = p2.expectedSalary) :
    GeminiServiceEL.buildRequestEL p1 = GeminiServiceEL.buildRequestEL p2
    ∧ ∀ (env : Option String) (service : GenRequest → ServiceOutcome),
        GeminiServiceEL.analyzeCompensationEL env service p1
          = GeminiServiceEL.analyzeCompensationEL env service p2 := by
  have hreq : GeminiServiceEL.buildRequestEL p1 = GeminiServiceEL.buildRequestEL p2 := by
    simp only [GeminiServiceEL.buildRequestEL, h1, h2, if_true, GeminiServiceEL.entryPrompt,
      hrole, hedu, hskills, hproj, hloc, hind, hcur, hexp]
  exact ⟨hreq, fun env service => by
    simp only [GeminiServiceEL.analyzeCompensationEL, hreq]⟩

/-- C10 witness: two concrete entry-level profiles differing in every
experienced-mode field produce the same outgoing request. -/
theorem c10_noninterference_witness :
    GeminiServiceEL.buildRequestEL pEntryA = GeminiServiceEL.buildRequestEL pEntryB :=
  (c10_entry_mode_noninterference pEntryA pEntryB rfl rfl rfl rfl rfl rfl rfl rfl rfl rfl).1

end Compensate
